import Mathlib

/-!
Verification of the `experimentor` laboratory-instrument framework.

Shallow embedding of the Python sources:
* `experimentor/models/feature.py` (`Feature` descriptor),
* `experimentor/models/model_properties.py` (`ModelProp` descriptor),
* `experimentor/models/models.py` (`Model._collect_properties`),
* `experimentor/models/devices/cameras/basler/basler.py` (`BaslerCamera`),
* `experimentor/core/publisher.py` (`Publisher.run`).

Python `None` is embedded as `Option.none`; property values are `Option Int`.
Instance state mutated by user-supplied getter/setter callables is embedded by
explicit state passing over a type parameter `σ`.
-/

namespace Experimentor

/-! ## Configuration store

`Modelled from the spec:` the per-model `ConfigurationStore` (its module is not
under `src/`).  Per the spec, `upgrade` "merges one or more name→value pairs
into the store, optionally forcing overwrite of cached entries"; the descriptors
always call it with `force=True`, so the entry for the key is overwritten. -/
def upgrade (c : List (String × Option Int)) (k : String) (v : Option Int) :
    List (String × Option Int) :=
  (k, v) :: c.filter (fun e => e.1 ≠ k)

/-! ## The `Feature` descriptor (`feature.py`)

A `Feature` holds the user getter `fget` (a state transformer on the instance
state `σ` returning the read value), the user setter `fset`, the bound `name`,
the `is_setting` flag (`kwargs.get('setting', False)`), the `force_update`
sentinel (`kwargs.get('force_update_arg', None)`) and the descriptor-level
cache `value` (initialised to `None`). -/
structure FeatureD (σ : Type) where
  fget : Option (σ → σ × Option Int)
  fset : Option (σ → Option Int → σ)
  name : String
  is_setting : Bool
  force_update : Option Int
  value : Option Int

/-- A model instance: its mutable fields `st` (acted on by getters/setters)
and its configuration store `config`. -/
structure Inst (σ : Type) where
  st : σ
  config : List (String × Option Int)

/-- `Feature.__get__` (feature.py lines 56–67), for a non-class access
(`instance is not None`).  Note that the fetched value is *not* written back
into the descriptor cache `value`; only `__set__` updates it. -/
def feature_get {σ : Type} (f : FeatureD σ) (i : Inst σ) :
    Except String (FeatureD σ × Inst σ × Option Int) :=
  match f.fget with
  | none => Except.error "unreadable attribute"
  | some g =>
    if f.is_setting = true ∧ f.value ≠ f.force_update then
      Except.ok (f, i, f.value)
    else
      let r := g i.st
      Except.ok (f, ⟨r.1, upgrade i.config f.name r.2⟩, r.2)

/-- `Feature.__set__` (feature.py lines 69–77).  When the descriptor is a
setting and the incoming value equals the `force_update` sentinel, the getter
is invoked instead of the setter (`value = self.fget(instance)`); in Python a
missing getter would then fail with a `TypeError`. -/
def feature_set {σ : Type} (f : FeatureD σ) (i : Inst σ) (v : Option Int) :
    Except String (FeatureD σ × Inst σ) :=
  match f.fset with
  | none => Except.error "cant set attribute"
  | some s =>
    if f.is_setting = true ∧ f.force_update = v then
      match f.fget with
      | none => Except.error "TypeError: NoneType object is not callable"
      | some g =>
        let r := g i.st
        Except.ok ({ f with value := r.2 }, ⟨r.1, upgrade i.config f.name r.2⟩)
    else
      Except.ok ({ f with value := v }, ⟨s i.st v, upgrade i.config f.name v⟩)

/-! ## The `ModelProp` descriptor (`model_properties.py`) -/

structure ModelPropD (σ : Type) where
  fget : Option (σ → σ × Option Int)
  fset : Option (σ → Option Int → σ)
  name : String

/-- `ModelProp.__set__` (model_properties.py lines 37–41): always invokes the
setter, then mirrors the written value into the configuration store. -/
def modelprop_set {σ : Type} (p : ModelPropD σ) (i : Inst σ) (v : Option Int) :
    Except String (Inst σ) :=
  match p.fset with
  | none => Except.error "cant set attribute"
  | some s => Except.ok ⟨s i.st v, upgrade i.config p.name v⟩

/-- `ModelProp.__get__` (model_properties.py lines 27–35): always invokes the
getter and mirrors the read value into the configuration store. -/
def modelprop_get {σ : Type} (p : ModelPropD σ) (i : Inst σ) :
    Except String (Inst σ × Option Int) :=
  match p.fget with
  | none => Except.error "unreadable attribute"
  | some g =>
    let r := g i.st
    Except.ok (⟨r.1, upgrade i.config p.name r.2⟩, r.2)

/-! ## `__set_name__` and the per-class property registry (C1)

Both `Feature.__set_name__` (feature.py lines 79–91) and
`ModelProp.__set_name__` (model_properties.py lines 43–55) run the same code:

    model_props = owner._model_props
    if getattr(model_props, 'model_name', None) != object.__qualname__:
        model_props = model_props.__class__(**model_props)
        setattr(model_props, 'model_name', object.__qualname__)
        owner._model_props = model_props
    owner._model_props[name] = self

`object` here is the Python builtin, so `object.__qualname__` is the constant
string `"object"` — not the owning class's qualified name.  Registries are
shared mutable dicts, so the embedding uses an explicit heap of registries
addressed by index; a class's `_model_props` attribute is the index of the
registry it resolves to through Python attribute lookup. -/

/-- `object.__qualname__`: the qualified name of the Python builtin `object`. -/
def object_qualname : String := "object"

/-- A property registry (`_model_props`): its `model_name` tag (absent on a
fresh registry, so `getattr(..., 'model_name', None)` yields `None`) and the
registered property names in insertion order. -/
structure Registry where
  model_name : Option String
  props : List String
deriving DecidableEq, Repr

/-- One `__set_name__` call: `heap` is the heap of registries, `ownerReg` the
index of the registry the owner class resolves `_model_props` to, `name` the
attribute name being bound.  Returns the updated heap and the index the owner
resolves to afterwards.  Mirrors the source: the copy is made (and tagged
`"object"`) only when the current registry's `model_name` differs from
`object.__qualname__`; otherwise the shared registry is mutated in place. -/
def set_name (heap : List Registry) (ownerReg : Nat) (name : String) :
    List Registry × Nat :=
  let reg := heap.getD ownerReg ⟨none, []⟩
  if reg.model_name = some object_qualname then
    (heap.set ownerReg ⟨reg.model_name, reg.props ++ [name]⟩, ownerReg)
  else
    (heap ++ [⟨some object_qualname, reg.props ++ [name]⟩], heap.length)

/-- `Modelled from the spec:` the root `Model` class's registry (the base-model
module that initialises `_model_props` is not under `src/`): an empty mapping
with no `model_name` recorded yet. -/
def rootHeap : List Registry := [⟨none, []⟩]

/-- Scenario of claim C1: base class `A` (inheriting the root registry at
index 0) declares `pA`; subclasses `B` and `C` of `A` each resolve
`_model_props` to `A`'s registry and declare `pB` resp. `pC`. -/
def c1_afterA : List Registry × Nat := set_name rootHeap 0 "pA"

def c1_afterB : List Registry × Nat := set_name c1_afterA.1 c1_afterA.2 "pB"

def c1_afterC : List Registry × Nat := set_name c1_afterB.1 c1_afterA.2 "pC"

/-! ## Concrete descriptors for claims C2 and C3 -/

/-- Concrete getter counting its invocations in the instance state. -/
def counting_getter : Nat → Nat × Option Int := fun n => (n + 1, some 42)

/-- A `Feature(setting=True)` with the default `force_update_arg` (`None`) and
fresh cache (`value = None`), bound under the name `"p"`. -/
def c3_feature : FeatureD Nat :=
  ⟨some counting_getter, none, "p", true, none, none⟩

/-- A fresh instance: getter-invocation counter 0, empty configuration store. -/
def c3_inst : Inst Nat := ⟨0, []⟩

/-- Concrete components for the C2 witness. -/
def c2_getter : Int → Int × Option Int := fun s => (s + 1, some 10)

def c2_setter : Int → Option Int → Int := fun s _ => s

def c2_feature : FeatureD Int :=
  ⟨some c2_getter, some c2_setter, "exposure", true, none, some 3⟩

def c2_prop : ModelPropD Int := ⟨none, some c2_setter, "gain"⟩

def c2_inst : Inst Int := ⟨0, []⟩

/-! ## `Model._collect_properties` (models.py lines 53–57, C4)

    def _collect_properties(self):
        for item in dir(self):
            if isinstance(item, ModelProp):
                prop = getattr(self, item)
                self._properties[item] = deepcopy(prop)

`dir(self)` yields attribute *names* (strings), so the `isinstance` test is
against a string.  Python runtime values are embedded as `PyVal` and
`dir`/`getattr`/`isinstance` directly on it.  (`deepcopy` is the identity on
the immutable embedded values; `_properties` — a list in the source, which the
dead branch would index with a string — is modelled as a name→value mapping,
charitably to the unreachable branch.) -/

/-- A Python runtime value, as far as `_collect_properties` can observe one. -/
inductive PyVal where
  | str (s : String)
  | modelProp (name : String)
  | intVal (n : Int)
deriving DecidableEq, Repr

/-- `isinstance(x, ModelProp)`. -/
def isinstance_ModelProp : PyVal → Bool
  | .modelProp _ => true
  | _ => false

/-- A model instance as seen by `_collect_properties`: its attribute
dictionary and its `_properties` collection. -/
structure PyModel where
  attrs : List (String × PyVal)
  _properties : List (String × PyVal)
deriving DecidableEq, Repr

/-- `dir(self)`: the attribute names, as string values. -/
def dirM (m : PyModel) : List PyVal := m.attrs.map (fun a => PyVal.str a.1)

/-- `getattr(self, item)` for a string key. -/
def getattrM (m : PyModel) (k : PyVal) : Option PyVal :=
  match k with
  | .str s => m.attrs.lookup s
  | _ => none

/-- One iteration of the `for item in dir(self)` loop body. -/
def collect_step (acc : PyModel) (item : PyVal) : PyModel :=
  if isinstance_ModelProp item then
    match item, getattrM acc item with
    | PyVal.str s, some prop => { acc with _properties := acc._properties ++ [(s, prop)] }
    | _, _ => acc
  else acc

/-- `Model._collect_properties`. -/
def collect_properties (m : PyModel) : PyModel :=
  (dirM m).foldl collect_step m

/-! ## The Basler camera model (`basler.py`) -/

/-- `Modelled from the spec:` the three acquisition-mode constants of the
absent `BaseCamera` class (`MODE_SINGLE_SHOT`, `MODE_CONTINUOUS`, `MODE_LAST`);
the spec fixes them as three distinct named constants, embedded as distinct
integers. -/
def MODE_SINGLE_SHOT : Int := 1

def MODE_CONTINUOUS : Int := 2

def MODE_LAST : Int := 3

/-- `BaslerCamera.initialize` (basler.py lines 32–56) — device matching.
`self.camera in device.GetFriendlyName()` is Python substring containment. -/
def matchesName (cam friendly : String) : Bool :=
  (List.range (friendly.toList.length + 1)).any
    (fun i => cam.toList.isPrefixOf (friendly.toList.drop i))

/-- Driver-binding state built by `initialize`'s enumeration loop: `_driver`
is the index (in enumeration order) of the device the driver handle currently
wraps, `opened` lists the indices of every device that was attached and
opened, in order, and `friendly_name` mirrors `self.friendly_name`. -/
structure InitSt where
  _driver : Option Nat
  opened : List Nat
  friendly_name : String
deriving DecidableEq, Repr

/-- The `for device in devices` loop: on each device whose friendly name
contains the configured identifier, a fresh `InstantCamera` is created,
attached and opened (there is no `break`). -/
def initLoop (cam : String) (st : InitSt) : List (Nat × String) → InitSt
  | [] => st
  | (i, name) :: rest =>
    initLoop cam (if matchesName cam name then ⟨some i, st.opened ++ [i], name⟩ else st) rest

/-- `BaslerCamera.initialize` up to the driver-binding part (the subsequent
software-trigger registration and config fetch do not change which device the
driver wraps). -/
def basler_init (cam : String) (devices : List String) : Except String InitSt :=
  if devices.length = 0 then Except.error "No camera found"
  else
    let r := initLoop cam ⟨none, [], ""⟩ ((List.range devices.length).zip devices)
    if r._driver.isNone then
      Except.error ("Basler " ++ cam ++ " not found. Please check if the camera is connected")
    else Except.ok r

/-- The enumerated `(index, friendly name)` pairs whose name matches. -/
def matchingPairs (cam : String) (devices : List String) : List (Nat × String) :=
  ((List.range devices.length).zip devices).filter (fun p => matchesName cam p.2)

/-- State of the `exposure` Feature getter (basler.py lines 68–78): the cached
`config['exposure']` entry, the device's exposure register (in microseconds —
the unit conversion `float(...) * Q_('us')` is boundary), whether the device
read raises `_genicam.TimeoutException`, and a count of device reads. -/
structure ExpState where
  config_exposure : Option Int
  deviceExposure : Int
  deviceTimesOut : Bool
  readCount : Nat
deriving DecidableEq, Repr

/-- The `exposure` getter: `if self.config['exposure'] is not None: return it`;
otherwise read the device register (counted), falling back to
`self.config['exposure']` on a timeout. -/
def exposure_fget (s : ExpState) : ExpState × Option Int :=
  match s.config_exposure with
  | some v => (s, some v)
  | none =>
    let s1 := { s with readCount := s.readCount + 1 }
    if s.deviceTimesOut then (s1, s.config_exposure)
    else (s1, some s.deviceExposure)

/-- A camera state with a cached exposure (`config['exposure'] = 5 us`) and a
device register holding 99 us, with no timeout pending. -/
def c6_state : ExpState := ⟨some 5, 99, false, 0⟩

/-- Camera state for the acquisition state machine (`acquisition_mode` setter,
`trigger_camera`, `start_free_run`): the stored `_acquisition_mode`, the
`free_run_running` flag, the driver's grabbing state and selected grab
strategy, the pixel format and derived dtype, and a count of
`ExecuteSoftwareTrigger` calls. -/
structure Cam where
  _acquisition_mode : Int
  free_run_running : Bool
  isGrabbing : Bool
  grab_strategy : Option String
  pixel_format : String
  current_dtype : Option String
  triggerCount : Nat
deriving DecidableEq, Repr

/-- A fresh `BaslerCamera` (`__init__`, basler.py lines 20 and 23–30):
`_acquisition_mode = BaseCamera.MODE_SINGLE_SHOT`, `free_run_running = False`,
not grabbing, no trigger issued yet. -/
def initCam : Cam :=
  ⟨MODE_SINGLE_SHOT, false, false, none, "Mono8", none, 0⟩

/-- The `acquisition_mode` Feature setter (basler.py lines 113–125): the mode
is stored only when it equals `MODE_CONTINUOUS` or `MODE_SINGLE_SHOT`; any
other value (such as `MODE_LAST`) leaves the stored mode unchanged.  (Logging,
including the grabbing-state warning, is a side channel not modelled.) -/
def set_acquisition_mode (s : Cam) (mode : Int) : Cam :=
  if mode = MODE_CONTINUOUS then { s with _acquisition_mode := mode }
  else if mode = MODE_SINGLE_SHOT then { s with _acquisition_mode := mode }
  else s

/-- `trigger_camera` (basler.py lines 217–239): stop grabbing, pick a grab
strategy from the stored mode (raising `CameraException` on an unknown mode),
record the dtype implied by the pixel format, and execute one software
trigger. -/
def trigger_camera (s : Cam) : Except String Cam :=
  let s0 := { s with isGrabbing := false }
  let mode := s0._acquisition_mode
  if mode = MODE_CONTINUOUS then
    triggerFinish { s0 with isGrabbing := true, grab_strategy := some "OneByOne" }
  else if mode = MODE_SINGLE_SHOT then
    triggerFinish { s0 with isGrabbing := true, grab_strategy := some "LatestImageOnly" }
  else if mode = MODE_LAST then
    triggerFinish { s0 with isGrabbing := true, grab_strategy := some "LatestImages" }
  else Except.error "Unknown acquisition mode"
where
  /-- The tail of `trigger_camera`: dtype bookkeeping and the software
  trigger itself. -/
  triggerFinish (s1 : Cam) : Except String Cam :=
    let s2 :=
      if s1.pixel_format = "Mono8" then { s1 with current_dtype := some "uint8" }
      else if s1.pixel_format = "Mono12" then { s1 with current_dtype := some "uint16" }
      else s1
    Except.ok { s2 with triggerCount := s2.triggerCount + 1 }

/-- `start_free_run` (basler.py lines 285–297): a second call while
`free_run_running` is set logs and returns (logging not modelled); otherwise
set the flag, switch to continuous mode through the setter, and trigger the
camera once. -/
def start_free_run (s : Cam) : Except String Cam :=
  if s.free_run_running then Except.ok s
  else trigger_camera (set_acquisition_mode { s with free_run_running := true } MODE_CONTINUOUS)

/-- State of one `read_camera` call (basler.py lines 242–273): the stored
mode, the grabbing flag, the number of ready buffers, the outcomes of the
successive `RetrieveResult` grabs (`true` = `GrabSucceeded`), and a count of
`RetrieveResult` invocations. -/
structure GrabSim where
  mode : Int
  isGrabbing : Bool
  numReadyBuffers : Nat
  pending : List Bool
  retrieveCount : Nat
deriving DecidableEq, Repr

/-- `read_camera`, returning the updated state and the number of frames in the
returned list.  In single-shot/"last" mode one retrieval is attempted with no
grabbing-state check (single-shot stops grabbing afterwards); otherwise —
i.e. in continuous mode — a not-grabbing camera raises `WrongCameraState`,
else all currently ready buffers are drained, keeping the successful grabs. -/
def read_camera (s : GrabSim) : Except String (GrabSim × Nat) :=
  if s.mode = MODE_SINGLE_SHOT ∨ s.mode = MODE_LAST then
    let ok := s.pending.headD false
    let img : Nat := if ok then 1 else 0
    let s1 := { s with pending := s.pending.tail, retrieveCount := s.retrieveCount + 1 }
    let s2 := if s.mode = MODE_SINGLE_SHOT then { s1 with isGrabbing := false } else s1
    Except.ok (s2, img)
  else
    if s.isGrabbing = false then
      Except.error "You need to trigger the camera before reading"
    else
      let n := s.numReadyBuffers
      let s1 := { s with pending := s.pending.drop n, retrieveCount := s.retrieveCount + n }
      Except.ok (s1, (s.pending.take n).count true)

/-- A camera in "last" mode that was never triggered (not grabbing), with one
successful grab available. -/
def c7_last_state : GrabSim := ⟨MODE_LAST, false, 0, [true], 0⟩

/-! ## The publisher's serve loop (`publisher.py`, C8) -/

/-- A payload received by `recv_pyobj`: a Python string or some other
serialized object. -/
inductive Payload where
  | pstr (s : String)
  | pobj (n : Nat)
deriving DecidableEq, Repr

/-- `isinstance(data, str) and data == settings.PUBLISHER_EXIT_KEYWORD`.
The exit keyword itself lives in the absent settings module, so the loop is
parametrised by it. -/
def isExit (exitKw : String) : Payload → Bool
  | .pstr s => s == exitKw
  | _ => false

/-- `Publisher.run`'s serve loop (publisher.py lines 64–77): while the shared
stop event is not set, receive a `(topic, data)` pair, re-emit it on the
fan-out socket, and set the event when the topic is the empty/broadcast topic
and the payload is the string exit keyword.  The input list models the
successive received pairs; the result is the sequence of re-emitted pairs.
(`topic is ""` is an identity test against the interned empty string, which in
CPython holds exactly for a received empty topic, hence `topic == ""` here.) -/
def serveRun (exitKw : String) (eventSet : Bool) :
    List (String × Payload) → List (String × Payload)
  | [] => []
  | (topic, data) :: rest =>
    if eventSet then []
    else
      (topic, data) :: serveRun exitKw (eventSet || (topic == "" && isExit exitKw data)) rest

end Experimentor

namespace Experimentor

/-! ## Helper lemmas -/

/-- The store always answers with the value just upgraded into it. -/
theorem lookup_upgrade (c : List (String × Option Int)) (k : String) (v : Option Int) :
    List.lookup k (upgrade c k v) = some v := by
  simp [upgrade, List.lookup]

/-- The loop body of `_collect_properties` never fires on a string item. -/
theorem collect_step_str (acc : PyModel) (s : String) :
    collect_step acc (PyVal.str s) = acc := rfl

theorem foldl_collect_step_strs (names : List String) :
    ∀ acc : PyModel, (names.map PyVal.str).foldl collect_step acc = acc := by
  induction names with
  | nil => intro acc; rfl
  | cons n ns ih => intro acc; simpa [collect_step_str] using ih acc

/-! ## Claims C1–C4 -/

/-- C1 — Property-registry inheritance isolation.  FALSIFIED by the code:
because `__set_name__` compares `model_name` against the constant
`object.__qualname__` (= `"object"`) instead of the owner's qualified name, the
copy is made only once (at `A`); `B` and `C` then share `A`'s registry, so
after the three declarations `A`, `B` and `C` all resolve to one registry
containing all of `pA`, `pB`, `pC`.  In particular `B`'s registry contains
`C`'s property, and the sibling declaration mutated the parent's registry. -/
theorem C1_registry_shared_across_siblings :
    c1_afterB.2 = c1_afterA.2 ∧ c1_afterC.2 = c1_afterA.2 ∧
    (c1_afterC.1.getD c1_afterA.2 ⟨none, []⟩).props = ["pA", "pB", "pC"] := by
  decide

/-- C2 — Property mirroring invariant: after a successful write `instance.P = v`
the configuration store maps `P` to the value recorded by the setter path:
`v` itself for `ModelProp` and for a non-sentinel `Feature` write, and the
getter's fresh re-read when `v` equals a cached `Feature`'s `force_update`
sentinel. -/
theorem C2_property_mirroring {σ : Type} (f f' : FeatureD σ) (g : σ → σ × Option Int)
    (p : ModelPropD σ) (i i' j j' : Inst σ) (v w : Option Int)
    (hg : f.fget = some g)
    (hf : feature_set f i v = Except.ok (f', i'))
    (hp : modelprop_set p j w = Except.ok j') :
    List.lookup f.name i'.config =
      some (if f.is_setting = true ∧ f.force_update = v then (g i.st).2 else v) ∧
    List.lookup p.name j'.config = some w := by
  constructor
  · cases hfs : f.fset with
    | none => rw [feature_set, hfs] at hf; cases hf
    | some s =>
      rw [feature_set, hfs] at hf
      simp only [hg] at hf
      by_cases hc : f.is_setting = true ∧ f.force_update = v
      · rw [if_pos hc] at hf
        cases hf
        rw [if_pos hc]
        exact lookup_upgrade i.config f.name (g i.st).2
      · rw [if_neg hc] at hf
        cases hf
        rw [if_neg hc]
        exact lookup_upgrade i.config f.name v
  · cases hps : p.fset with
    | none => rw [modelprop_set, hps] at hp; cases hp
    | some s =>
      rw [modelprop_set, hps] at hp
      cases hp
      exact lookup_upgrade j.config p.name w

/-- Witness for C2 at concrete inputs: a cached `Feature` written with the
sentinel `None` records the getter's re-read `some 10`; a `ModelProp` written
with `some 7` records `some 7`. -/
theorem C2_property_mirroring_witness :
    List.lookup "exposure" [("exposure", (some 10 : Option Int))] = some (some 10) ∧
    List.lookup "gain" [("gain", (some 7 : Option Int))] = some (some 7) := by
  have h := C2_property_mirroring c2_feature
    ⟨some c2_getter, some c2_setter, "exposure", true, none, some 10⟩ c2_getter
    c2_prop c2_inst ⟨1, [("exposure", some 10)]⟩ c2_inst ⟨0, [("gain", some 7)]⟩
    none (some 7) rfl rfl rfl
  simpa using h

/-- C3 — Cached-setting read-without-device-access.  FALSIFIED by the code: for
a `Feature(setting=True)` with the default sentinel (`None`) and a getter that
bumps a counter, `__get__` never stores the fetched value into the descriptor
cache, so the cache stays `None` (equal to the sentinel) and *both* reads
invoke the getter: after two reads the counter is 2, not at most 1. -/
theorem C3_cached_setting_getter_called_twice :
    feature_get c3_feature c3_inst =
      Except.ok (c3_feature, ⟨1, [("p", some 42)]⟩, some 42) ∧
    feature_get c3_feature ⟨1, [("p", some 42)]⟩ =
      Except.ok (c3_feature, ⟨2, [("p", some 42)]⟩, some 42) :=
  ⟨rfl, rfl⟩

/-- C4 — Model property collection.  FALSIFIED by the code: `dir(self)` yields
strings and `isinstance(<string>, ModelProp)` is always false, so the loop body
never executes and `_collect_properties` leaves the instance — in particular
its `_properties` collection — unchanged: on an instance with a
`ModelProp`-bound attribute, `_properties` is *not* made non-empty. -/
theorem C4_collect_properties_is_noop (m : PyModel) :
    collect_properties m = m := by
  have h : dirM m = (m.attrs.map Prod.fst).map PyVal.str := by
    simp [dirM, List.map_map]
  rw [collect_properties, h]
  exact foldl_collect_step_strs (m.attrs.map Prod.fst) m

/-! ## Claim C5 -/

theorem initLoop_append (cam : String) (l1 l2 : List (Nat × String)) (st : InitSt) :
    initLoop cam st (l1 ++ l2) = initLoop cam (initLoop cam st l1) l2 := by
  induction l1 generalizing st with
  | nil => rfl
  | cons d rest ih =>
    obtain ⟨i, nm⟩ := d
    simp only [List.cons_append, initLoop]
    exact ih _

/-- The enumeration loop of `initialize` implements last-match-wins: the final
driver/name come from the last matching device, and every matching device in
order was attached and opened. -/
theorem initLoop_last_match (cam : String) (l : List (Nat × String)) :
    ∀ st : InitSt,
      initLoop cam st l =
        match (l.filter (fun q => matchesName cam q.2)).getLast? with
        | none => st
        | some p =>
          ⟨some p.1, st.opened ++ (l.filter (fun q => matchesName cam q.2)).map Prod.fst,
            p.2⟩ := by
  induction l using List.reverseRecOn with
  | nil => intro st; rfl
  | append_singleton l d ih =>
    intro st
    rw [initLoop_append]
    obtain ⟨i, nm⟩ := d
    by_cases hm : matchesName cam nm = true
    · have hf : ((l ++ [(i, nm)]).filter (fun q => matchesName cam q.2))
          = (l.filter (fun q => matchesName cam q.2)) ++ [(i, nm)] := by
        simp [List.filter_append, hm]
      have hstep : initLoop cam (initLoop cam st l) [(i, nm)]
          = ⟨some i, (initLoop cam st l).opened ++ [i], nm⟩ := by
        simp [initLoop, hm]
      rw [hf, List.getLast?_concat, hstep, ih st]
      cases hgl : (l.filter (fun q => matchesName cam q.2)).getLast? with
      | none =>
        have hnil : l.filter (fun q => matchesName cam q.2) = [] :=
          List.getLast?_eq_none_iff.mp hgl
        simp [hnil]
      | some p =>
        simp [List.map_append]
    · have hf : ((l ++ [(i, nm)]).filter (fun q => matchesName cam q.2))
          = l.filter (fun q => matchesName cam q.2) := by
        simp [List.filter_append, hm]
      have hstep : initLoop cam (initLoop cam st l) [(i, nm)] = initLoop cam st l := by
        simp [initLoop, hm]
      rw [hf, hstep, ih st]

/-- C5 counterexample — two devices both match the identifier `"cam"`: the
loop attaches and opens *both* (`opened = [0, 1]`), and the driver handle
refers to the *last* match (index 1, `"cam B"`), not the earliest; the claim
predicts `opened = [0]` and driver index 0. -/
theorem C5_counterexample_second_match_attached :
    basler_init "cam" ["cam A", "cam B"] =
      Except.ok ⟨some 1, [0, 1], "cam B"⟩ ∧
    basler_init "cam" ["cam A", "cam B"] ≠
      Except.ok ⟨some 0, [0], "cam A"⟩ := by
  have h1 : basler_init "cam" ["cam A", "cam B"] =
      Except.ok ⟨some 1, [0, 1], "cam B"⟩ := rfl
  exact ⟨h1, by simp [h1]⟩

/-- C5 (amended) — for any device list with at least one friendly-name match,
`initialize` attaches and opens *every* matching device in enumeration order,
and the driver handle afterwards refers to the *last* match. -/
theorem C5_amended_every_match_attached_last_wins (cam : String)
    (devices : List String) (p : Nat × String)
    (h : (matchingPairs cam devices).getLast? = some p) :
    basler_init cam devices =
      Except.ok ⟨some p.1, (matchingPairs cam devices).map Prod.fst, p.2⟩ := by
  have hne : ¬ devices.length = 0 := by
    intro h0
    have hdev : devices = [] := List.length_eq_zero.mp h0
    subst hdev
    simp [matchingPairs] at h
  have hspec := initLoop_last_match cam ((List.range devices.length).zip devices)
    ⟨none, [], ""⟩
  simp only [matchingPairs] at h ⊢
  rw [h] at hspec
  rw [basler_init, if_neg hne]
  simp only [hspec, List.nil_append, Option.isNone_some]
  rfl

/-- Witness for C5 (amended) at the concrete two-match device list. -/
theorem C5_amended_witness :
    (matchingPairs "cam" ["cam A", "cam B"]).getLast? = some (1, "cam B") ∧
    basler_init "cam" ["cam A", "cam B"] =
      Except.ok ⟨some 1, [0, 1], "cam B"⟩ := by
  have h := C5_amended_every_match_attached_last_wins "cam" ["cam A", "cam B"]
    (1, "cam B") (by decide)
  exact ⟨by decide, by simpa using h⟩

/-! ## Claim C6 -/

/-- C6 counterexample — with a non-`None` cached configuration value
(`config['exposure'] = 5`) and *no* timeout, the getter returns the cached
value without any device register read (`readCount` stays 0), while the device
register holds 99; the claim predicts a device read on every access, and the
cached value only on a timeout. -/
theorem C6_counterexample_cached_without_timeout :
    exposure_fget c6_state = (c6_state, some 5) ∧
    (exposure_fget c6_state).1.readCount = 0 ∧
    c6_state.deviceTimesOut = false ∧
    (exposure_fget c6_state).2 ≠ some c6_state.deviceExposure := by
  refine ⟨rfl, rfl, rfl, by decide⟩

/-- C6 (amended) — the exposure getter reads the device register only when the
cached configuration value is `None`: in that case it performs exactly one
device read and returns the register value (in microseconds), or, on a
timeout, the cached configuration value (then `None`); whenever the cached
value is non-`None` it is returned directly with no device access. -/
theorem C6_amended_exposure_getter (s : ExpState) :
    (s.config_exposure = none →
      (exposure_fget s).1.readCount = s.readCount + 1 ∧
      (s.deviceTimesOut = false → (exposure_fget s).2 = some s.deviceExposure) ∧
      (s.deviceTimesOut = true → (exposure_fget s).2 = none)) ∧
    (∀ v : Int, s.config_exposure = some v →
      exposure_fget s = (s, some v)) := by
  constructor
  · intro h
    by_cases ht : s.deviceTimesOut
    · simp [exposure_fget, h, ht]
    · simp [exposure_fget, h, ht]
  · intro v hv
    simp [exposure_fget, hv]

/-- Witness for C6 (amended) at concrete states: an empty cache gives one
device read returning 99; a cache holding 5 is served directly. -/
theorem C6_amended_exposure_getter_witness :
    (exposure_fget ⟨none, 99, false, 0⟩).1.readCount = 1 ∧
    (exposure_fget ⟨none, 99, false, 0⟩).2 = some 99 ∧
    exposure_fget ⟨some 5, 99, false, 0⟩ = (⟨some 5, 99, false, 0⟩, some 5) := by
  have h1 := C6_amended_exposure_getter ⟨none, 99, false, 0⟩
  have h2 := C6_amended_exposure_getter ⟨some 5, 99, false, 0⟩
  exact ⟨(h1.1 rfl).1, (h1.1 rfl).2.1 rfl, h2.2 5 rfl⟩

/-! ## Claim C7 -/

/-- C7 counterexample — in `MODE_LAST` while *not* grabbing, `read_camera`
does not raise "wrong camera state": it proceeds to a frame retrieval
(`retrieveCount` becomes 1) and returns the grabbed frame; the claim predicts
the wrong-camera-state error for "last" mode as well. -/
theorem C7_counterexample_last_mode_not_checked :
    read_camera c7_last_state =
      Except.ok (⟨MODE_LAST, false, 0, [], 1⟩, 1) := rfl

/-- C7 (amended) — on a non-grabbing camera, `read_camera` raises the
wrong-camera-state error exactly when the mode is neither single-shot nor
"last" (in particular in continuous mode before any `trigger_camera` call,
with no frame retrieval attempted); in "last" mode the grabbing check is
skipped and one retrieval is performed. -/
theorem C7_amended_read_precondition (s : GrabSim) (hg : s.isGrabbing = false) :
    (¬(s.mode = MODE_SINGLE_SHOT ∨ s.mode = MODE_LAST) →
      read_camera s = Except.error "You need to trigger the camera before reading") ∧
    (s.mode = MODE_LAST →
      read_camera s = Except.ok
        ({ s with pending := s.pending.tail, retrieveCount := s.retrieveCount + 1 },
          if s.pending.headD false then 1 else 0)) := by
  constructor
  · intro hm
    simp [read_camera, hm, hg]
  · intro hm
    have hss : ¬ s.mode = MODE_SINGLE_SHOT := by
      rw [hm]; decide
    rw [read_camera, if_pos (Or.inr hm)]
    simp [if_neg hss]

/-- Witness for C7 (amended): a continuous-mode camera that was never
triggered fails with the wrong-camera-state error; a "last"-mode camera
retrieves its frame. -/
theorem C7_amended_read_precondition_witness :
    read_camera ⟨MODE_CONTINUOUS, false, 0, [], 0⟩ =
      Except.error "You need to trigger the camera before reading" ∧
    read_camera ⟨MODE_LAST, false, 2, [true], 5⟩ =
      Except.ok (⟨MODE_LAST, false, 2, [], 6⟩, 1) := by
  have h1 := C7_amended_read_precondition ⟨MODE_CONTINUOUS, false, 0, [], 0⟩ rfl
  have h2 := C7_amended_read_precondition ⟨MODE_LAST, false, 2, [true], 5⟩ rfl
  exact ⟨h1.1 (by decide), by simpa using h2.2 rfl⟩

/-! ## Claim C8 -/

/-- Once the stop event is set, the serve loop emits nothing further. -/
theorem serveRun_stopped (exitKw : String) (l : List (String × Payload)) :
    serveRun exitKw true l = [] := by
  rcases l with _ | ⟨⟨t, d⟩, r⟩ <;> rfl

/-- C8 — Relay shutdown: on receiving a message with the empty (broadcast)
topic whose payload is the string exit sentinel, the serve loop re-emits that
pair exactly once and then sets the stop flag, so no further message is
processed; any other pair is re-emitted identically and the loop continues
with the flag still clear. -/
theorem C8_relay_shutdown (exitKw topic : String) (d : Payload)
    (rest : List (String × Payload)) :
    (topic = "" → isExit exitKw d = true →
      serveRun exitKw false ((topic, d) :: rest) = [(topic, d)]) ∧
    (¬(topic = "" ∧ isExit exitKw d = true) →
      serveRun exitKw false ((topic, d) :: rest) =
        (topic, d) :: serveRun exitKw false rest) := by
  constructor
  · intro h1 h2
    rw [serveRun]
    simp [h1, h2, serveRun_stopped]
  · intro h
    have hx : (topic == "" && isExit exitKw d) = false := by
      by_cases ht : topic = ""
      · cases hb : isExit exitKw d with
        | true => exact absurd ⟨ht, hb⟩ h
        | false => simp [ht, hb]
      · simp [ht]
    rw [serveRun]
    simp [hx]

/-- Witness for C8: with exit keyword `"stop"`, the broadcast exit message is
re-emitted once and the following message is never served; a plain message is
re-emitted and serving continues. -/
theorem C8_relay_shutdown_witness :
    serveRun "stop" false [("", Payload.pstr "stop"), ("t", Payload.pobj 0)] =
      [("", Payload.pstr "stop")] ∧
    serveRun "stop" false [("t", Payload.pobj 0)] = [("t", Payload.pobj 0)] := by
  have h1 := C8_relay_shutdown "stop" "" (Payload.pstr "stop") [("t", Payload.pobj 0)]
  have h2 := C8_relay_shutdown "stop" "t" (Payload.pobj 0) []
  exact ⟨h1.1 rfl (by decide), by simpa using h2.2 (by decide)⟩

/-! ## Claim C9 -/

/-- A `start_free_run` call on a camera that is not yet free-running: the flag
is set, the mode switched to continuous through the setter, and exactly one
software trigger executed. -/
theorem start_free_run_not_running (s : Cam) (h : s.free_run_running = false) :
    start_free_run s = Except.ok
      { s with
          free_run_running := true,
          _acquisition_mode := MODE_CONTINUOUS,
          isGrabbing := true,
          grab_strategy := some "OneByOne",
          current_dtype :=
            if s.pixel_format = "Mono8" then some "uint8"
            else if s.pixel_format = "Mono12" then some "uint16" else s.current_dtype,
          triggerCount := s.triggerCount + 1 } := by
  rw [start_free_run, if_neg (by simp [h])]
  by_cases h8 : s.pixel_format = "Mono8"
  · simp [set_acquisition_mode, trigger_camera, trigger_camera.triggerFinish, h8]
  · by_cases h12 : s.pixel_format = "Mono12"
    · simp [set_acquisition_mode, trigger_camera, trigger_camera.triggerFinish, h8, h12]
    · simp [set_acquisition_mode, trigger_camera, trigger_camera.triggerFinish, h8, h12]

/-- C9 — Free-run start idempotence: starting from a camera whose running flag
is clear, the first `start_free_run` call succeeds, sets the running flag and
continuous mode, and issues exactly one trigger; the second call returns the
same state unchanged (no further trigger). -/
theorem C9_free_run_idempotent (s : Cam) (h : s.free_run_running = false) :
    ∃ s1 : Cam, start_free_run s = Except.ok s1 ∧
      start_free_run s1 = Except.ok s1 ∧
      s1.triggerCount = s.triggerCount + 1 ∧
      s1.free_run_running = true ∧
      s1._acquisition_mode = MODE_CONTINUOUS := by
  refine ⟨_, start_free_run_not_running s h, ?_, rfl, rfl, rfl⟩
  rw [start_free_run]
  simp

/-- Witness for C9 on a freshly constructed camera. -/
theorem C9_free_run_idempotent_witness :
    ∃ s1 : Cam, start_free_run initCam = Except.ok s1 ∧
      start_free_run s1 = Except.ok s1 ∧
      s1.triggerCount = initCam.triggerCount + 1 ∧
      s1.free_run_running = true ∧
      s1._acquisition_mode = MODE_CONTINUOUS :=
  C9_free_run_idempotent initCam rfl

/-! ## Claim C10 -/

/-- The set of modes the setter can store is closed under setter calls. -/
theorem acquisition_mode_closed (ms : List Int) :
    ∀ s : Cam,
      s._acquisition_mode = MODE_CONTINUOUS ∨ s._acquisition_mode = MODE_SINGLE_SHOT →
      (ms.foldl set_acquisition_mode s)._acquisition_mode = MODE_CONTINUOUS ∨
      (ms.foldl set_acquisition_mode s)._acquisition_mode = MODE_SINGLE_SHOT := by
  induction ms with
  | nil => intro s hs; exact hs
  | cons m rest ih =>
    intro s hs
    refine ih _ ?_
    by_cases h1 : m = MODE_CONTINUOUS
    · left; simp [set_acquisition_mode, h1]
    · by_cases h2 : m = MODE_SINGLE_SHOT
      · right; simp [set_acquisition_mode, h1, h2]
      · simpa [set_acquisition_mode, h1, h2] using hs

/-- C10 — Acquisition-mode reachability invariant: the setter leaves the
stored mode unchanged on any value other than `MODE_CONTINUOUS` and
`MODE_SINGLE_SHOT` (in particular on `MODE_LAST`); starting from the initial
`MODE_SINGLE_SHOT`, after any sequence of setter calls the stored mode is
`MODE_CONTINUOUS` or `MODE_SINGLE_SHOT` and never `MODE_LAST`, so the
"last"-mode branches of `trigger_camera` and `read_camera` are unreachable
through the public setter. -/
theorem C10_acquisition_mode_invariant :
    (∀ (s : Cam) (m : Int), m ≠ MODE_CONTINUOUS → m ≠ MODE_SINGLE_SHOT →
      set_acquisition_mode s m = s) ∧
    (∀ ms : List Int,
      ((ms.foldl set_acquisition_mode initCam)._acquisition_mode = MODE_CONTINUOUS ∨
        (ms.foldl set_acquisition_mode initCam)._acquisition_mode = MODE_SINGLE_SHOT) ∧
      (ms.foldl set_acquisition_mode initCam)._acquisition_mode ≠ MODE_LAST) := by
  constructor
  · intro s m h1 h2
    simp [set_acquisition_mode, h1, h2]
  · intro ms
    have hcl := acquisition_mode_closed ms initCam (Or.inr rfl)
    refine ⟨hcl, ?_⟩
    rcases hcl with hc | hc <;> rw [hc] <;> decide

/-- Witness for C10: assigning `MODE_LAST` to a fresh camera is a no-op, and
after the setter sequence `[MODE_LAST]` the stored mode is not `MODE_LAST`. -/
theorem C10_acquisition_mode_invariant_witness :
    set_acquisition_mode initCam MODE_LAST = initCam ∧
    ((MODE_LAST :: ([] : List Int)).foldl set_acquisition_mode initCam)._acquisition_mode ≠
      MODE_LAST := by
  have h := C10_acquisition_mode_invariant
  exact ⟨h.1 initCam MODE_LAST (by decide) (by decide), (h.2 (MODE_LAST :: [])).2⟩

end Experimentor
